import Mathlib

/-!
Shallow embedding of the chart-assembly core of the repository:
the line-graph assembler (source file with `assembleLineGraphObject`,
`createLevelArray`, `createSingleStatArray`, `createLineGraphObject`,
`createLineChartDataSet`) and the radar-chart assembler
(`src/js/radarChart.js`).  JavaScript numbers are modelled as `JsNum`
(an exact rational, or the special values NaN / Infinity / -Infinity
produced by division by zero); the stat tables hold plain rationals.
Data accessors whose defining file is not part of the sources are
modelled from the specification and carry a doc comment saying so.
-/

/-- The seven enumerated stat names (spec section 3, `StatSnapshot`). -/
inductive StatName where
  | ATP
  | DFP
  | MST
  | ATA
  | EVP
  | HP
  | TP
  deriving DecidableEq

/-- The string key of a stat name, as it appears in the JS objects. -/
def StatName.key : StatName → String
  | .ATP => "ATP"
  | .DFP => "DFP"
  | .MST => "MST"
  | .ATA => "ATA"
  | .EVP => "EVP"
  | .HP => "HP"
  | .TP => "TP"

/-- A JS object keyed by the seven stat names, such as the literals
`{ "ATP": 0, "ATA": 0, ... }` in `createPercentageStats` and
`createMaximumStatsObject` of `src/js/radarChart.js`. -/
structure StatObj (α : Type) where
  atp : α
  dfp : α
  mst : α
  ata : α
  evp : α
  hp : α
  tp : α
  deriving DecidableEq

/-- Property read `obj[statName]`. -/
def StatObj.get {α : Type} (o : StatObj α) : StatName → α
  | .ATP => o.atp
  | .DFP => o.dfp
  | .MST => o.mst
  | .ATA => o.ata
  | .EVP => o.evp
  | .HP => o.hp
  | .TP => o.tp

/-- Property write `obj[statName] = v`. -/
def StatObj.set {α : Type} (o : StatObj α) (s : StatName) (v : α) : StatObj α :=
  match s with
  | .ATP => { o with atp := v }
  | .DFP => { o with dfp := v }
  | .MST => { o with mst := v }
  | .ATA => { o with ata := v }
  | .EVP => { o with evp := v }
  | .HP => { o with hp := v }
  | .TP => { o with tp := v }

/-- A JS number value in the positions where a division may have
produced a non-finite result. -/
inductive JsNum where
  | real (q : ℚ)
  | nan
  | posInfty
  | negInfty
  deriving DecidableEq

/-- JS division `a / b` of two finite numbers: `0 / 0` is NaN and
`a / 0` with `a ≠ 0` is a signed infinity. -/
def jsDiv (a b : ℚ) : JsNum :=
  if b = 0 then
    if a = 0 then .nan else if 0 < a then .posInfty else .negInfty
  else
    .real (a / b)

/-- JS multiplication of a (possibly non-finite) number by a finite
constant, used for the `* 100` in `createPercentageStats`. -/
def jsMul (x : JsNum) (c : ℚ) : JsNum :=
  match x with
  | .real a => .real (a * c)
  | .nan => .nan
  | .posInfty => if 0 < c then .posInfty else if c < 0 then .negInfty else .nan
  | .negInfty => if 0 < c then .negInfty else if c < 0 then .posInfty else .nan

/-- An RGB triple, the shape of the entries of the static color tables. -/
structure RGB where
  red : ℚ
  green : ℚ
  blue : ℚ
  deriving DecidableEq

/-- A color together with the alpha channel, the information carried by
the `rgba(red, green, blue, alpha)` strings the dataset builders emit. -/
structure RGBA where
  rgb : RGB
  alpha : ℚ
  deriving DecidableEq

/-- A chart label: JS is untyped, and the two assemblers put values of
different runtime types in the `labels` array (level numbers for the
line graph, stat-name strings for the radar chart). -/
inductive Label where
  | num (n : Int)
  | str (s : String)
  deriving DecidableEq

/-- One snapshot of the seven stats of a class at one level. -/
abbrev StatSnapshot := StatObj ℚ

/-- The all-zero snapshot. -/
def zeroSnapshot : StatSnapshot := ⟨0, 0, 0, 0, 0, 0, 0⟩

/-- One entry `{ level, stats }` of a class's level table. -/
structure LevelEntry where
  level : Int
  stats : StatSnapshot
  deriving DecidableEq

/-- One class's record in the static dataset: its identifier and its
`levelData` table, the shape read by `createSingleStatArray`. -/
structure CharacterClassData where
  name : String
  levelData : List LevelEntry
  deriving DecidableEq

/-- The static dataset: the array of class records iterated by
`createStatAtLevelArray` and searched by the class accessor. -/
abbrev ClassDataSet := List CharacterClassData

/-- The error a data accessor raises on a missing key
(spec section 7, `NotFoundError`). -/
inductive JsError where
  | notFound (key : String)
  deriving DecidableEq

/-- Modelled from the spec: `classTable(classId, dataset)` "fails with
`NotFoundError` if `classId` has no entry in `dataset`".  The file
defining `getCharacterClassDataObject` is not among the sources; both
assemblers call it. -/
def getCharacterClassDataObject (classId : String) (dataset : ClassDataSet) :
    Except JsError CharacterClassData :=
  match dataset.find? (fun c => c.name == classId) with
  | some c => .ok c
  | none => .error (.notFound classId)

/-- Modelled from the spec: `tableInRange(table, start, end)` "filters
the table's entries to those whose `level` lies within `[start, end]`
inclusive; order preserved".  The file defining
`getCharacterClassDataInRange` is not among the sources. -/
def getCharacterClassDataInRange (startLevel endLevel : Int)
    (c : CharacterClassData) : CharacterClassData :=
  { c with levelData :=
      c.levelData.filter (fun en => decide (startLevel ≤ en.level ∧ en.level ≤ endLevel)) }

/-- Modelled from the spec: the radar assembler "extract[s] its
StatSnapshot at `level`" from a class's table.  The file defining
`getStatsAtLevel` is not among the sources; the entry with the exact
level is looked up (every claim uses levels present in the table, where
any nearest-level policy coincides with exact lookup), and the all-zero
snapshot stands in for a missing level. -/
def getStatsAtLevel (c : CharacterClassData) (level : Int) : StatSnapshot :=
  match c.levelData.find? (fun en => en.level == level) with
  | some en => en.stats
  | none => zeroSnapshot

/-- Saturate a color channel into the valid 0..255 range. -/
def satChannel (x : ℚ) : ℚ := min 255 (max 0 x)

/-- Modelled from the spec: `resolveStatColor(statName, colorTable,
modifier)` looks up the base color of the stat and applies the numeric
`modifier` as a deterministic channel shift that saturates at the 0..255
channel bounds (the exact shift formula is an internal design choice).
The file defining `getStatColor` is not among the sources. -/
def getStatColor (statName : StatName) (allStatColors : StatObj RGB)
    (modifier : ℚ) : RGB :=
  let base := allStatColors.get statName
  { red := satChannel (base.red + modifier)
    green := satChannel (base.green + modifier)
    blue := satChannel (base.blue + modifier) }

/-- Modelled from the spec: `resolveClassColor(classId, colorTable)` is
a "direct lookup; fails with `NotFoundError` if missing".  The file
defining `getCharacterColor` is not among the sources. -/
def getCharacterColor (characterColors : List (String × RGB))
    (className : String) : Except JsError RGB :=
  match characterColors.find? (fun p => p.1 == className) with
  | some p => .ok p.2
  | none => .error (.notFound className)

/-- Sequential effectful map over a list in the `Except` monad: the
first raised error propagates, exactly as a JS exception escapes a
`for` loop that pushes one result per iteration. -/
def mapExcept {α β ε : Type} (f : α → Except ε β) : List α → Except ε (List β)
  | [] => .ok []
  | x :: xs =>
    match f x with
    | .error e => .error e
    | .ok y =>
      match mapExcept f xs with
      | .error e => .error e
      | .ok ys => .ok (y :: ys)

/-! ## Radar chart assembler (`src/js/radarChart.js`) -/

/-- `createPercentageStats` of `src/js/radarChart.js`: starts from the
literal object with every stat 0 and overwrites, for each name in
`statNames`, the entry with `(value / max) * 100` using JS arithmetic
(no guard against a zero maximum). -/
def createPercentageStats (characterStatsAtLevel : StatSnapshot)
    (maximumStatsObject : StatSnapshot) (statNames : List StatName) :
    StatObj JsNum :=
  statNames.foldl
    (fun acc s =>
      acc.set s (jsMul (jsDiv (characterStatsAtLevel.get s) (maximumStatsObject.get s)) 100))
    ⟨.real 0, .real 0, .real 0, .real 0, .real 0, .real 0, .real 0⟩

/-- `createStatAtLevelArray` of `src/js/radarChart.js`: the snapshot of
every class in the dataset at the given level. -/
def createStatAtLevelArray (allCharacters : ClassDataSet) (level : Int) :
    List StatSnapshot :=
  allCharacters.map (fun c => getStatsAtLevel c level)

/-- `createMaximumStatsObject` of `src/js/radarChart.js`: per stat name,
the running `Math.max` over every snapshot in the list, starting from the
literal all-zero object. -/
def createMaximumStatsObject (allCharacterStatsAtLevel : List StatSnapshot)
    (statNames : List StatName) : StatSnapshot :=
  allCharacterStatsAtLevel.foldl
    (fun acc snap =>
      statNames.foldl (fun a t => a.set t (max (snap.get t) (a.get t))) acc)
    zeroSnapshot

/-- `createStatArray` of `src/js/radarChart.js`: reads the percentage
object back into an array in `statNames` order. -/
def createStatArray (percentageStatsObject : StatObj JsNum)
    (statNames : List StatName) : List JsNum :=
  statNames.map (fun s => percentageStatsObject.get s)

/-- One radar dataset, the object literal of `createRadarChartDataSet`. -/
structure RadarDataSet where
  label : String
  data : List JsNum
  fill : Bool
  backgroundColor : RGBA
  borderColor : RGBA
  pointBorderColor : RGBA
  pointBackgroundColor : RGBA
  deriving DecidableEq

/-- `createRadarChartDataSet` of `src/js/radarChart.js`. -/
def createRadarChartDataSet (className : String)
    (percentageStatsArray : List JsNum) (rgb : RGB) : RadarDataSet :=
  { label := className
    data := percentageStatsArray
    fill := true
    backgroundColor := ⟨rgb, 1/2⟩
    borderColor := ⟨rgb, 3/4⟩
    pointBorderColor := ⟨rgb, 1⟩
    pointBackgroundColor := ⟨rgb, 1⟩ }

/-- The `title` option object `{ display: true, text }`. -/
structure TitleOption where
  display : Bool
  text : String
  deriving DecidableEq

/-- The `ticks` option object of the radar chart. -/
structure TickOptions where
  beginAtZero : Bool
  min : Int
  max : Int
  stepSize : Int
  deriving DecidableEq

/-- The `scale` option object of the radar chart. -/
structure ScaleOptions where
  ticks : TickOptions
  deriving DecidableEq

/-- The radar chart's `options` object: title, scale, legend position. -/
structure RadarOptions where
  title : TitleOption
  scale : ScaleOptions
  legendPosition : String
  deriving DecidableEq

/-- The radar chart's `data` object `{ labels, datasets }`. -/
structure RadarChartData where
  labels : List Label
  datasets : List RadarDataSet
  deriving DecidableEq

/-- The whole radar chart object `{ type, data, options }`. -/
structure RadarChartObject where
  type : String
  data : RadarChartData
  options : RadarOptions
  deriving DecidableEq

/-- `createRadarChartObject` of `src/js/radarChart.js`: type `'radar'`,
`data` with labels and datasets, `options` with the title, the fixed
0..100 scale with step 10, and the legend at the top. -/
def createRadarChartObject (labels : List Label)
    (datasets : List RadarDataSet) (title : String) : RadarChartObject :=
  { type := "radar"
    data := { labels := labels, datasets := datasets }
    options :=
      { title := { display := true, text := title }
        scale := { ticks := { beginAtZero := true, min := 0, max := 100, stepSize := 10 } }
        legendPosition := "top" } }

/-- The body of the `for` loop of `createRadarChartDataSets` in
`src/js/radarChart.js`, for one selected class: look the class up, take
its snapshot at the level, normalize against the maximum over the whole
dataset, and build the dataset with the class's own color. -/
def createRadarDataSetForClass (className : String)
    (allClassData : ClassDataSet) (characterColors : List (String × RGB))
    (selectedLevel : Int) (statNames : List StatName) :
    Except JsError RadarDataSet :=
  match getCharacterClassDataObject className allClassData with
  | .error e => .error e
  | .ok characterClassData =>
    let characterStatsAtLevel := getStatsAtLevel characterClassData selectedLevel
    let statsAtLevel := createStatAtLevelArray allClassData selectedLevel
    let maximumStatsObject := createMaximumStatsObject statsAtLevel statNames
    let percentageStatsObject :=
      createPercentageStats characterStatsAtLevel maximumStatsObject statNames
    let percentageStatArray := createStatArray percentageStatsObject statNames
    match getCharacterColor characterColors className with
    | .error e => .error e
    | .ok characterColor =>
      .ok (createRadarChartDataSet className percentageStatArray characterColor)

/-- `createRadarChartDataSets` of `src/js/radarChart.js`: one dataset per
selected class, in selection order (the source `for` loop). -/
def createRadarChartDataSets (selectedCharacterClasses : List String)
    (allClassData : ClassDataSet) (characterColors : List (String × RGB))
    (selectedLevel : Int) (statNames : List StatName) :
    Except JsError (List RadarDataSet) :=
  mapExcept
    (fun c => createRadarDataSetForClass c allClassData characterColors selectedLevel statNames)
    selectedCharacterClasses

/-- `assembleRadarChartObject` of `src/js/radarChart.js`: builds the
datasets and wraps them with labels `statNames` and the fixed title
`'Class stats'`. -/
def assembleRadarChartObject (selectedCharacterClasses : List String)
    (allClassData : ClassDataSet) (characterColors : List (String × RGB))
    (selectedLevel : Int) (statNames : List StatName) :
    Except JsError RadarChartObject :=
  match createRadarChartDataSets selectedCharacterClasses allClassData
      characterColors selectedLevel statNames with
  | .error e => .error e
  | .ok dataSets =>
    .ok (createRadarChartObject (statNames.map (fun s => Label.str s.key))
      dataSets "Class stats")

/-! ## Line graph assembler (the source file with `assembleLineGraphObject`) -/

/-- Rounding to the next multiple of 5, `Math.ceil(x/5)*5` on an integer
input (integer ceiling division written with Euclidean division). -/
def ceil5 (x : Int) : Int := -(-x / 5) * 5

/-- The level-range clamp inlined at the top of `assembleLineGraphObject`:
raise `startLevel` to 5, lower `endLevel` to 200, then round both up to
a multiple of 5. -/
def clampLevelRange (startLevel endLevel : Int) : Int × Int :=
  let s := if startLevel < 5 then 5 else startLevel
  let e := if endLevel > 200 then 200 else endLevel
  (ceil5 s, ceil5 e)

/-- The loop of `createLevelArray`, structured on a fuel bound on the
number of iterations: pushes `i, i+5, i+10, ...` while `i ≤ upper`. -/
def createLevelArrayGo (upper : Int) : Nat → Int → List Int
  | 0, _ => []
  | fuel + 1, i =>
    if i ≤ upper then i :: createLevelArrayGo upper fuel (i + 5) else []

/-- `createLevelArray` of the line-graph source: the levels
`lower, lower+5, ..., ≤ upper`.  The fuel `(upper + 1 - lower).toNat`
is at least the iteration count of the source loop, so the two agree. -/
def createLevelArray (lower upper : Int) : List Int :=
  createLevelArrayGo upper (upper + 1 - lower).toNat lower

/-- `createSingleStatArray` of the line-graph source: one value of the
given stat per entry of the (already range-filtered) level table, in
table order.  No check relates the result to the label sequence. -/
def createSingleStatArray (statName : StatName)
    (characterClassData : CharacterClassData) : List ℚ :=
  characterClassData.levelData.map (fun en => en.stats.get statName)

/-- One line-graph dataset, the object literal of `createLineChartDataSet`. -/
structure LineDataSet where
  data : List ℚ
  label : String
  backgroundColor : RGBA
  borderColor : RGBA
  pointBorderColor : RGBA
  pointBackgroundColor : RGBA
  fill : Bool
  deriving DecidableEq

/-- `createLineChartDataSet` of the line-graph source. -/
def createLineChartDataSet (data : List ℚ) (label : String) (rgb : RGB) :
    LineDataSet :=
  { data := data
    label := label
    backgroundColor := ⟨rgb, 1/2⟩
    borderColor := ⟨rgb, 3/4⟩
    pointBorderColor := ⟨rgb, 1⟩
    pointBackgroundColor := ⟨rgb, 1⟩
    fill := false }

/-- The line graph's `options` object (only a title). -/
structure LineOptions where
  title : TitleOption
  deriving DecidableEq

/-- The line graph's `data` object.  In the source of
`createLineGraphObject` the braces place `options` INSIDE `data`,
alongside `labels` and `datasets`; the embedding reproduces that
nesting. -/
structure LineChartData where
  labels : List Label
  datasets : List LineDataSet
  options : LineOptions
  deriving DecidableEq

/-- The whole line graph object `{ type, data }` (see `LineChartData`
for where the source's brace placement puts `options`). -/
structure LineGraphObject where
  type : String
  data : LineChartData
  deriving DecidableEq

/-- `createLineGraphObject` of the line-graph source. -/
def createLineGraphObject (labels : List Label) (dataSets : List LineDataSet)
    (title : String) : LineGraphObject :=
  { type := "line"
    data :=
      { labels := labels
        datasets := dataSets
        options := { title := { display := true, text := title } } } }

/-- The body of the inner `for` loop of `assembleLineGraphObject`, for
one `(class, stat)` pair at class index `i` out of `n` selected classes:
label `"class(stat)"`, the class's table filtered to the range, the
stat's value sequence, the per-class hue modifier
`i * (100 / n)` (JS float division), and the colored dataset. -/
def createLineDataSetForPair (className : String) (statName : StatName)
    (i n : Nat) (allClassData : ClassDataSet) (allStatColors : StatObj RGB)
    (startLevel endLevel : Int) : Except JsError LineDataSet :=
  match getCharacterClassDataObject className allClassData with
  | .error e => .error e
  | .ok characterStatsDataObject =>
    let dataLabel := className ++ "(" ++ statName.key ++ ")"
    let characterStatsDataObjectInRange :=
      getCharacterClassDataInRange startLevel endLevel characterStatsDataObject
    let statArray := createSingleStatArray statName characterStatsDataObjectInRange
    let modifier : ℚ := (i : ℚ) * (100 / (n : ℚ))
    let rgb := getStatColor statName allStatColors modifier
    .ok (createLineChartDataSet statArray dataLabel rgb)

/-- The nested `for` loops of `assembleLineGraphObject`: outer over the
selected classes (index `i`), inner over the selected stats, pushing the
datasets in that order. -/
def lineDataSetsAux (selectedStats : List StatName)
    (allClassData : ClassDataSet) (allStatColors : StatObj RGB) (n : Nat)
    (startLevel endLevel : Int) :
    List String → Nat → Except JsError (List LineDataSet)
  | [], _ => .ok []
  | c :: rest, i =>
    match mapExcept
        (fun st => createLineDataSetForPair c st i n allClassData allStatColors
          startLevel endLevel)
        selectedStats with
    | .error e => .error e
    | .ok inner =>
      match lineDataSetsAux selectedStats allClassData allStatColors n
          startLevel endLevel rest (i + 1) with
      | .error e => .error e
      | .ok restSets => .ok (inner ++ restSets)

/-- `assembleLineGraphObject` of the line-graph source: clamp the range,
build the numeric level labels, build one dataset per (class, stat)
pair, and wrap with `createLineGraphObject`. -/
def assembleLineGraphObject (selectedClasses : List String)
    (selectedStats : List StatName) (title : String)
    (allClassData : ClassDataSet) (allStatColors : StatObj RGB)
    (startLevel endLevel : Int) : Except JsError LineGraphObject :=
  let p := clampLevelRange startLevel endLevel
  let scaleLabels := createLevelArray p.1 p.2
  match lineDataSetsAux selectedStats allClassData allStatColors
      selectedClasses.length p.1 p.2 selectedClasses 0 with
  | .error e => .error e
  | .ok dataSets =>
    .ok (createLineGraphObject (scaleLabels.map Label.num) dataSets title)

/-! ## Helper lemmas -/

theorem StatObj.get_set {α : Type} (o : StatObj α) (t s : StatName) (v : α) :
    (o.set t v).get s = if t = s then v else o.get s := by
  cases t <;> cases s <;> simp [StatObj.set, StatObj.get]

theorem percFold_get (v m : StatSnapshot) (l : List StatName)
    (acc : StatObj JsNum) (s : StatName) :
    (l.foldl
        (fun a t => a.set t (jsMul (jsDiv (v.get t) (m.get t)) 100)) acc).get s
      = if s ∈ l then jsMul (jsDiv (v.get s) (m.get s)) 100 else acc.get s := by
  induction l generalizing acc with
  | nil => simp
  | cons t rest ih =>
    simp only [List.foldl_cons, ih, StatObj.get_set, List.mem_cons]
    by_cases hrest : s ∈ rest
    · simp [hrest]
    · by_cases hts : t = s
      · subst hts
        simp [hrest]
      · have : ¬ s = t := fun h => hts h.symm
        simp [hrest, hts, this]

/-- Reading back a stat that was written by `createPercentageStats`. -/
theorem createPercentageStats_get (v m : StatSnapshot) (sn : List StatName)
    (s : StatName) (hs : s ∈ sn) :
    (createPercentageStats v m sn).get s
      = jsMul (jsDiv (v.get s) (m.get s)) 100 := by
  rw [createPercentageStats, percFold_get, if_pos hs]

theorem maxFold_get (snap : StatSnapshot) (sn : List StatName)
    (acc : StatSnapshot) (s : StatName) :
    (sn.foldl (fun a t => a.set t (max (snap.get t) (a.get t))) acc).get s
      = if s ∈ sn then max (snap.get s) (acc.get s) else acc.get s := by
  induction sn generalizing acc with
  | nil => simp
  | cons t rest ih =>
    simp only [List.foldl_cons, ih, StatObj.get_set, List.mem_cons]
    by_cases hrest : s ∈ rest
    · by_cases hts : t = s
      · subst hts
        simp [hrest, ← max_assoc]
      · simp [hrest, hts]
    · by_cases hts : t = s
      · subst hts
        simp [hrest]
      · have : ¬ s = t := fun h => hts h.symm
        simp [hrest, hts, this]

theorem maxFold_acc_le (sn : List StatName) (s : StatName)
    (l : List StatSnapshot) :
    ∀ acc : StatSnapshot,
      acc.get s ≤ (l.foldl
        (fun b snap => sn.foldl (fun a t => a.set t (max (snap.get t) (a.get t))) b)
        acc).get s := by
  induction l with
  | nil => intro acc; simp
  | cons snap rest ih =>
    intro acc
    simp only [List.foldl_cons]
    refine le_trans ?_ (ih _)
    rw [maxFold_get]
    by_cases h : s ∈ sn
    · rw [if_pos h]
      exact le_max_right _ _
    · rw [if_neg h]

/-- Every snapshot in the list is bounded by the maximum object
`createMaximumStatsObject` computes, at every requested stat. -/
theorem le_createMaximumStatsObject (l : List StatSnapshot)
    (sn : List StatName) (s : StatName) (hs : s ∈ sn) (snap : StatSnapshot)
    (hmem : snap ∈ l) :
    snap.get s ≤ (createMaximumStatsObject l sn).get s := by
  rw [createMaximumStatsObject]
  have aux : ∀ (l' : List StatSnapshot) (acc : StatSnapshot), snap ∈ l' →
      snap.get s ≤ (l'.foldl
        (fun b sp => sn.foldl (fun a t => a.set t (max (sp.get t) (a.get t))) b)
        acc).get s := by
    intro l'
    induction l' with
    | nil => intro acc h; cases h
    | cons hd rest ih =>
      intro acc hm
      simp only [List.foldl_cons]
      rcases List.mem_cons.mp hm with h | h
      · subst h
        refine le_trans ?_ (maxFold_acc_le sn s rest _)
        rw [maxFold_get, if_pos hs]
        exact le_max_left _ _
      · exact ih _ h
  exact aux l zeroSnapshot hmem

theorem mapExcept_ok_length {α β ε : Type} (f : α → Except ε β) (l : List α)
    (ys : List β) (h : mapExcept f l = .ok ys) : ys.length = l.length := by
  induction l generalizing ys with
  | nil =>
    rw [mapExcept] at h
    cases h
    rfl
  | cons x xs ih =>
    rw [mapExcept] at h
    cases hfx : f x with
    | error e => rw [hfx] at h; cases h
    | ok y =>
      rw [hfx] at h
      cases hrec : mapExcept f xs with
      | error e => rw [hrec] at h; cases h
      | ok ys' =>
        rw [hrec] at h
        cases h
        simp [ih ys' hrec]

theorem mapExcept_ok_mem {α β ε : Type} (f : α → Except ε β) (l : List α)
    (ys : List β) (h : mapExcept f l = .ok ys) (y : β) (hy : y ∈ ys) :
    ∃ x ∈ l, f x = .ok y := by
  induction l generalizing ys with
  | nil =>
    rw [mapExcept] at h
    cases h
    cases hy
  | cons x xs ih =>
    rw [mapExcept] at h
    cases hfx : f x with
    | error e => rw [hfx] at h; cases h
    | ok y' =>
      rw [hfx] at h
      cases hrec : mapExcept f xs with
      | error e => rw [hrec] at h; cases h
      | ok ys' =>
        rw [hrec] at h
        cases h
        rcases List.mem_cons.mp hy with h | hmem
        · subst h
          exact ⟨x, List.mem_cons_self x xs, hfx⟩
        · obtain ⟨x', hx', hfx'⟩ := ih ys' hrec hmem
          exact ⟨x', List.mem_cons_of_mem x hx', hfx'⟩

theorem mapExcept_error_of_mem {α β ε : Type} (f : α → Except ε β) (l : List α)
    (x : α) (hx : x ∈ l) (e : ε) (hfx : f x = .error e) :
    ∃ er, mapExcept f l = .error er := by
  induction l with
  | nil => cases hx
  | cons hd rest ih =>
    rcases List.mem_cons.mp hx with h | hmem
    · subst h
      refine ⟨e, ?_⟩
      rw [mapExcept, hfx]
    · cases hfh : f hd with
      | error e' =>
        refine ⟨e', ?_⟩
        rw [mapExcept, hfh]
      | ok y =>
        obtain ⟨er, her⟩ := ih hmem
        refine ⟨er, ?_⟩
        rw [mapExcept, hfh, her]

theorem mapExcept_ok_map {α β γ ε : Type} (f : α → Except ε β) (g : β → γ)
    (h' : α → γ) (l : List α) (ys : List β) (h : mapExcept f l = .ok ys)
    (hfg : ∀ x y, f x = .ok y → g y = h' x) : ys.map g = l.map h' := by
  induction l generalizing ys with
  | nil =>
    rw [mapExcept] at h
    cases h
    rfl
  | cons x xs ih =>
    rw [mapExcept] at h
    cases hfx : f x with
    | error e => rw [hfx] at h; cases h
    | ok y =>
      rw [hfx] at h
      cases hrec : mapExcept f xs with
      | error e => rw [hrec] at h; cases h
      | ok ys' =>
        rw [hrec] at h
        cases h
        simp [hfg x y hfx, ih ys' hrec]

/-- Shape of a successful radar dataset build: the two lookups
succeeded, and the dataset is the normalized percentage vector of the
looked-up class.  The normalization denominator is computed from
`allClassData` alone and does not mention the selection. -/
theorem createRadarDataSetForClass_ok (className : String)
    (ds : ClassDataSet) (cols : List (String × RGB)) (lvl : Int)
    (sn : List StatName) (d : RadarDataSet)
    (h : createRadarDataSetForClass className ds cols lvl sn = .ok d) :
    ∃ cd rgb, getCharacterClassDataObject className ds = .ok cd ∧
      getCharacterColor cols className = .ok rgb ∧
      d = createRadarChartDataSet className
        (createStatArray
          (createPercentageStats (getStatsAtLevel cd lvl)
            (createMaximumStatsObject (createStatAtLevelArray ds lvl) sn) sn)
          sn) rgb := by
  rw [createRadarDataSetForClass] at h
  cases hcd : getCharacterClassDataObject className ds with
  | error e => rw [hcd] at h; cases h
  | ok cd =>
    rw [hcd] at h
    cases hcc : getCharacterColor cols className with
    | error e =>
      simp only [hcc] at h
      cases h
    | ok rgb =>
      simp only [hcc] at h
      cases h
      exact ⟨cd, rgb, rfl, rfl, rfl⟩

/-- The label of a successfully built radar dataset is the class name. -/
theorem createRadarDataSetForClass_label (className : String)
    (ds : ClassDataSet) (cols : List (String × RGB)) (lvl : Int)
    (sn : List StatName) (d : RadarDataSet)
    (h : createRadarDataSetForClass className ds cols lvl sn = .ok d) :
    d.label = className := by
  obtain ⟨cd, rgb, -, -, hd⟩ := createRadarDataSetForClass_ok _ _ _ _ _ _ h
  rw [hd]
  rfl

/-- Shape of a successful line dataset build for one (class, stat) pair. -/
theorem createLineDataSetForPair_ok (className : String) (statName : StatName)
    (i n : Nat) (ds : ClassDataSet) (cols : StatObj RGB) (s e : Int)
    (d : LineDataSet)
    (h : createLineDataSetForPair className statName i n ds cols s e = .ok d) :
    ∃ cd, getCharacterClassDataObject className ds = .ok cd ∧
      d = createLineChartDataSet
        (createSingleStatArray statName (getCharacterClassDataInRange s e cd))
        (className ++ "(" ++ statName.key ++ ")")
        (getStatColor statName cols ((i : ℚ) * (100 / (n : ℚ)))) := by
  rw [createLineDataSetForPair] at h
  cases hcd : getCharacterClassDataObject className ds with
  | error er => rw [hcd] at h; cases h
  | ok cd =>
    rw [hcd] at h
    cases h
    exact ⟨cd, rfl, rfl⟩

/-- A failed class lookup fails the whole pair build. -/
theorem createLineDataSetForPair_error (className : String)
    (statName : StatName) (i n : Nat) (ds : ClassDataSet) (cols : StatObj RGB)
    (s e : Int) (er : JsError)
    (h : getCharacterClassDataObject className ds = .error er) :
    createLineDataSetForPair className statName i n ds cols s e = .error er := by
  rw [createLineDataSetForPair, h]

/-- Labels of the datasets the nested line-graph loops produce: the
Cartesian product of the selected classes and stats, outer over classes,
inner over stats. -/
theorem lineDataSetsAux_labels (stats : List StatName) (ds : ClassDataSet)
    (cols : StatObj RGB) (n : Nat) (s e : Int) (classes : List String)
    (i : Nat) (sets : List LineDataSet)
    (h : lineDataSetsAux stats ds cols n s e classes i = .ok sets) :
    sets.map (fun d => d.label)
      = (classes.map
          (fun c => stats.map (fun st => c ++ "(" ++ st.key ++ ")"))).flatten := by
  induction classes generalizing i sets with
  | nil =>
    rw [lineDataSetsAux] at h
    cases h
    rfl
  | cons c rest ih =>
    rw [lineDataSetsAux] at h
    cases hinner : mapExcept
        (fun st => createLineDataSetForPair c st i n ds cols s e) stats with
    | error er => rw [hinner] at h; cases h
    | ok inner =>
      rw [hinner] at h
      cases hrest : lineDataSetsAux stats ds cols n s e rest (i + 1) with
      | error er => rw [hrest] at h; cases h
      | ok restSets =>
        rw [hrest] at h
        cases h
        have hlab : inner.map (fun d => d.label)
            = stats.map (fun st => c ++ "(" ++ st.key ++ ")") :=
          mapExcept_ok_map
            (fun st => createLineDataSetForPair c st i n ds cols s e)
            (fun d => d.label) (fun st => c ++ "(" ++ st.key ++ ")")
            stats inner hinner
            (fun st d hd => by
              obtain ⟨cd, -, hdef⟩ :=
                createLineDataSetForPair_ok c st i n ds cols s e d hd
              rw [hdef]
              rfl)
        simp [hlab, ih _ _ hrest]

/-- The number of datasets the nested line-graph loops produce. -/
theorem lineDataSetsAux_length (stats : List StatName) (ds : ClassDataSet)
    (cols : StatObj RGB) (n : Nat) (s e : Int) (classes : List String)
    (i : Nat) (sets : List LineDataSet)
    (h : lineDataSetsAux stats ds cols n s e classes i = .ok sets) :
    sets.length = classes.length * stats.length := by
  induction classes generalizing i sets with
  | nil =>
    rw [lineDataSetsAux] at h
    cases h
    simp
  | cons c rest ih =>
    rw [lineDataSetsAux] at h
    cases hinner : mapExcept
        (fun st => createLineDataSetForPair c st i n ds cols s e) stats with
    | error er => rw [hinner] at h; cases h
    | ok inner =>
      rw [hinner] at h
      cases hrest : lineDataSetsAux stats ds cols n s e rest (i + 1) with
      | error er => rw [hrest] at h; cases h
      | ok restSets =>
        rw [hrest] at h
        cases h
        have h1 := mapExcept_ok_length _ _ _ hinner
        have h2 := ih _ _ hrest
        simp [h1, h2, Nat.succ_mul, Nat.add_comm]

/-- Every dataset the nested line-graph loops produce comes from some
selected (class, stat) pair at some class index. -/
theorem lineDataSetsAux_mem (stats : List StatName) (ds : ClassDataSet)
    (cols : StatObj RGB) (n : Nat) (s e : Int) (classes : List String)
    (i : Nat) (sets : List LineDataSet)
    (h : lineDataSetsAux stats ds cols n s e classes i = .ok sets)
    (d : LineDataSet) (hd : d ∈ sets) :
    ∃ c ∈ classes, ∃ st ∈ stats, ∃ j,
      createLineDataSetForPair c st j n ds cols s e = .ok d := by
  induction classes generalizing i sets with
  | nil =>
    rw [lineDataSetsAux] at h
    cases h
    cases hd
  | cons c rest ih =>
    rw [lineDataSetsAux] at h
    cases hinner : mapExcept
        (fun st => createLineDataSetForPair c st i n ds cols s e) stats with
    | error er => rw [hinner] at h; cases h
    | ok inner =>
      rw [hinner] at h
      cases hrest : lineDataSetsAux stats ds cols n s e rest (i + 1) with
      | error er => rw [hrest] at h; cases h
      | ok restSets =>
        rw [hrest] at h
        cases h
        rcases List.mem_append.mp hd with hmem | hmem
        · obtain ⟨st, hst, hok⟩ := mapExcept_ok_mem _ _ _ hinner d hmem
          exact ⟨c, List.mem_cons_self c rest, st, hst, i, hok⟩
        · obtain ⟨c', hc', st, hst, j, hok⟩ := ih _ _ hrest hmem
          exact ⟨c', List.mem_cons_of_mem c hc', st, hst, j, hok⟩

/-- A selected class missing from the dataset fails the nested loops,
provided at least one stat is selected (the lookup happens inside the
inner loop). -/
theorem lineDataSetsAux_error (stats : List StatName) (ds : ClassDataSet)
    (cols : StatObj RGB) (n : Nat) (s e : Int) (classes : List String)
    (c : String) (hc : c ∈ classes) (er : JsError)
    (herr : getCharacterClassDataObject c ds = .error er)
    (hstats : stats ≠ []) :
    ∀ i, ∃ er', lineDataSetsAux stats ds cols n s e classes i = .error er' := by
  induction classes with
  | nil => cases hc
  | cons hd rest ih =>
    intro i
    rcases List.mem_cons.mp hc with h | hmem
    · subst h
      cases stats with
      | nil => cases hstats rfl
      | cons st sts =>
        have hfail : createLineDataSetForPair c st i n ds cols s e = .error er :=
          createLineDataSetForPair_error _ _ _ _ _ _ _ _ _ herr
        obtain ⟨er', her'⟩ :=
          mapExcept_error_of_mem
            (fun st' => createLineDataSetForPair c st' i n ds cols s e)
            (st :: sts) st (List.mem_cons_self st sts) er hfail
        refine ⟨er', ?_⟩
        rw [lineDataSetsAux, her']
    · cases hinner : mapExcept
          (fun st => createLineDataSetForPair hd st i n ds cols s e) stats with
      | error e' =>
        refine ⟨e', ?_⟩
        rw [lineDataSetsAux, hinner]
      | ok inner =>
        obtain ⟨er', her'⟩ := ih hmem (i + 1)
        refine ⟨er', ?_⟩
        rw [lineDataSetsAux, hinner, her']

/-! ## Concrete instances used by witnesses and counterexamples -/

def sampleRGB : RGB := ⟨10, 20, 30⟩

def snapA : StatSnapshot := ⟨1, 2, 3, 4, 5, 6, 7⟩

def snapB : StatSnapshot := ⟨2, 4, 6, 8, 10, 12, 14⟩

def classA : CharacterClassData := ⟨"A", [⟨5, snapA⟩, ⟨10, snapA⟩]⟩

def classB : CharacterClassData := ⟨"B", [⟨5, snapB⟩, ⟨10, snapB⟩]⟩

def twoClassData : ClassDataSet := [classA, classB]

def twoClassColors : List (String × RGB) := [("A", sampleRGB), ("B", sampleRGB)]

def sampleStatColors : StatObj RGB :=
  ⟨sampleRGB, sampleRGB, sampleRGB, sampleRGB, sampleRGB, sampleRGB, sampleRGB⟩

def classZ : CharacterClassData := ⟨"Z", [⟨5, zeroSnapshot⟩]⟩

def classW : CharacterClassData := ⟨"W", [⟨5, zeroSnapshot⟩]⟩

def zeroClassData : ClassDataSet := [classZ]

def zwClassData : ClassDataSet := [classZ, classW]

def zwColors : List (String × RGB) := [("Z", sampleRGB), ("W", sampleRGB)]

def classGap : CharacterClassData := ⟨"A", [⟨5, snapA⟩]⟩

def gapClassData : ClassDataSet := [classGap]

/-! ## Claims -/

/-- C6: for every valid level-range input `(start, end)` (at least 5, at
most 200, start at most end), the clamped bounds satisfy
`5 ≤ start' ≤ end' ≤ 200`, both are multiples of 5, and an input that is
already a pair of multiples of 5 within bounds is returned unchanged. -/
theorem clampLevelRange_valid (s e : Int) (h : 5 ≤ s ∧ s ≤ e ∧ e ≤ 200) :
    5 ≤ (clampLevelRange s e).1 ∧
      (clampLevelRange s e).1 ≤ (clampLevelRange s e).2 ∧
      (clampLevelRange s e).2 ≤ 200 ∧
      (5 : Int) ∣ (clampLevelRange s e).1 ∧
      (5 : Int) ∣ (clampLevelRange s e).2 ∧
      ((5 : Int) ∣ s → (5 : Int) ∣ e → clampLevelRange s e = (s, e)) := by
  obtain ⟨h5, hse, h200⟩ := h
  have hs : (if s < 5 then (5 : Int) else s) = s := if_neg (by omega)
  have he : (if e > 200 then (200 : Int) else e) = e := if_neg (by omega)
  simp only [clampLevelRange, hs, he, ceil5]
  refine ⟨by omega, by omega, by omega, by omega, by omega, ?_⟩
  intro hds hde
  have h1 : -(-s / 5) * 5 = s := by omega
  have h2 : -(-e / 5) * 5 = e := by omega
  rw [h1, h2]

/-- Witness for C6 at the concrete input `(7, 23)`. -/
theorem clampLevelRange_valid_witness :
    5 ≤ (clampLevelRange 7 23).1 ∧
      (clampLevelRange 7 23).1 ≤ (clampLevelRange 7 23).2 ∧
      (clampLevelRange 7 23).2 ≤ 200 ∧
      (5 : Int) ∣ (clampLevelRange 7 23).1 ∧
      (5 : Int) ∣ (clampLevelRange 7 23).2 ∧
      ((5 : Int) ∣ 7 → (5 : Int) ∣ 23 → clampLevelRange 7 23 = (7, 23)) :=
  clampLevelRange_valid 7 23 (by norm_num)

/-- C10: the radar assembler passes the fixed string `'Class stats'` as
the title, so every successfully assembled radar chart carries that
title; the assembler takes no title parameter. -/
theorem radar_title_fixed (sel : List String) (ds : ClassDataSet)
    (cols : List (String × RGB)) (lvl : Int) (sn : List StatName)
    (o : RadarChartObject)
    (h : assembleRadarChartObject sel ds cols lvl sn = .ok o) :
    o.options.title.text = "Class stats" := by
  rw [assembleRadarChartObject] at h
  cases hds : createRadarChartDataSets sel ds cols lvl sn with
  | error e => rw [hds] at h; cases h
  | ok dataSets =>
    rw [hds] at h
    cases h
    rfl

/-- Witness for C10 at a concrete successful assembly. -/
theorem radar_title_fixed_witness :
    ∃ o, assembleRadarChartObject ["A"] twoClassData twoClassColors 5
        [StatName.ATP] = .ok o ∧
      o.options.title.text = "Class stats" := by
  refine ⟨_, rfl, ?_⟩
  exact radar_title_fixed ["A"] twoClassData twoClassColors 5 [StatName.ATP] _ rfl

/-- With no selected stats the nested line-graph loops build nothing:
the class lookup sits inside the inner loop and is never reached. -/
theorem lineDataSetsAux_nil_stats (ds : ClassDataSet) (cols : StatObj RGB)
    (n : Nat) (s e : Int) :
    ∀ (classes : List String) (i : Nat),
      lineDataSetsAux [] ds cols n s e classes i = .ok [] := by
  intro classes
  induction classes with
  | nil =>
    intro i
    rw [lineDataSetsAux]
  | cons c rest ih =>
    intro i
    rw [lineDataSetsAux]
    simp [mapExcept, ih]

/-- C3 (amended): every successful assembly has the chart-spec shape:
`type` is `"line"` for the line assembler and `"radar"` for the radar
assembler, the labels are a sequence (of numeric level labels for the
line graph — not strings — and of stat-name strings for the radar
chart), the datasets are a sequence of dataset values, and the title is
present in the output (inside `data.options` for the line graph, whose
source nests `options` within `data`). -/
theorem chartSpec_shape (selC : List String) (selS : List StatName)
    (title : String) (ds : ClassDataSet) (statCols : StatObj RGB)
    (s e : Int) (sel2 : List String) (ds2 : ClassDataSet)
    (ccols : List (String × RGB)) (lvl : Int) (sn : List StatName)
    (o1 : LineGraphObject) (o2 : RadarChartObject)
    (h1 : assembleLineGraphObject selC selS title ds statCols s e = .ok o1)
    (h2 : assembleRadarChartObject sel2 ds2 ccols lvl sn = .ok o2) :
    o1.type = "line" ∧ (∀ l ∈ o1.data.labels, ∃ k : Int, l = .num k) ∧
      o1.data.options.title.text = title ∧
      o2.type = "radar" ∧ (∀ l ∈ o2.data.labels, ∃ t : String, l = .str t) ∧
      o2.options.title.text = "Class stats" := by
  simp only [assembleLineGraphObject] at h1
  rw [assembleRadarChartObject] at h2
  cases hds1 : lineDataSetsAux selS ds statCols selC.length
      (clampLevelRange s e).1 (clampLevelRange s e).2 selC 0 with
  | error er => rw [hds1] at h1; cases h1
  | ok sets =>
    rw [hds1] at h1
    cases h1
    cases hds2 : createRadarChartDataSets sel2 ds2 ccols lvl sn with
    | error er => rw [hds2] at h2; cases h2
    | ok sets2 =>
      rw [hds2] at h2
      cases h2
      refine ⟨rfl, ?_, rfl, rfl, ?_, rfl⟩
      · intro l hl
        obtain ⟨k, -, hk⟩ := List.mem_map.mp hl
        exact ⟨k, hk.symm⟩
      · intro l hl
        obtain ⟨t, -, ht⟩ := List.mem_map.mp hl
        exact ⟨t.key, ht.symm⟩

/-- Witness for C3 (amended) at concrete successful assemblies. -/
theorem chartSpec_shape_witness :
    ∃ o1 o2,
      assembleLineGraphObject ["A"] [StatName.ATP] "T" twoClassData
        sampleStatColors 5 10 = .ok o1 ∧
      assembleRadarChartObject ["A"] twoClassData twoClassColors 5
        [StatName.ATP] = .ok o2 ∧
      (o1.type = "line" ∧ (∀ l ∈ o1.data.labels, ∃ k : Int, l = .num k) ∧
        o1.data.options.title.text = "T" ∧
        o2.type = "radar" ∧ (∀ l ∈ o2.data.labels, ∃ t : String, l = .str t) ∧
        o2.options.title.text = "Class stats") := by
  refine ⟨_, _, rfl, rfl, ?_⟩
  exact chartSpec_shape ["A"] [StatName.ATP] "T" twoClassData sampleStatColors
    5 10 ["A"] twoClassData twoClassColors 5 [StatName.ATP] _ _ rfl rfl

/-- Counterexample to C3 as stated: the line assembler's labels are JS
numbers (the levels), not strings. -/
theorem chartSpec_labels_not_strings :
    ∃ o, assembleLineGraphObject ["A"] [StatName.ATP] "T" twoClassData
        sampleStatColors 5 10 = .ok o ∧
      Label.num 5 ∈ o.data.labels ∧ ∀ t : String, Label.num 5 ≠ .str t := by
  refine ⟨_, rfl, ?_, ?_⟩
  · show Label.num 5 ∈ (createLevelArray 5 10).map Label.num
    decide
  · intro t h
    cases h

/-- C9: a line-assembly call with an empty class selection or an empty
stat selection succeeds (raises nothing) and returns a well-formed chart
object with zero datasets. -/
theorem line_empty_selection (selC : List String) (selS : List StatName)
    (title : String) (ds : ClassDataSet) (cols : StatObj RGB) (s e : Int)
    (h : selC = [] ∨ selS = []) :
    ∃ o, assembleLineGraphObject selC selS title ds cols s e = .ok o ∧
      o.data.datasets = [] ∧ o.type = "line" ∧
      o.data.options.title.text = title ∧
      o.data.labels = (createLevelArray (clampLevelRange s e).1
        (clampLevelRange s e).2).map Label.num := by
  have haux : lineDataSetsAux selS ds cols selC.length
      (clampLevelRange s e).1 (clampLevelRange s e).2 selC 0 = .ok [] := by
    rcases h with rfl | rfl
    · rw [lineDataSetsAux]
    · exact lineDataSetsAux_nil_stats ds cols selC.length _ _ selC 0
  refine ⟨createLineGraphObject ((createLevelArray (clampLevelRange s e).1
    (clampLevelRange s e).2).map Label.num) [] title, ?_, rfl, rfl, rfl, rfl⟩
  simp only [assembleLineGraphObject, haux]

/-- Witness for C9 at a concrete empty class selection. -/
theorem line_empty_selection_witness :
    ∃ o, assembleLineGraphObject [] [StatName.ATP] "T" twoClassData
        sampleStatColors 5 10 = .ok o ∧
      o.data.datasets = [] ∧ o.type = "line" ∧
      o.data.options.title.text = "T" ∧
      o.data.labels = (createLevelArray (clampLevelRange 5 10).1
        (clampLevelRange 5 10).2).map Label.num :=
  line_empty_selection [] [StatName.ATP] "T" twoClassData sampleStatColors
    5 10 (Or.inl rfl)

/-- C7: a successful line assembly over nonempty selections produces
exactly `|classes| * |stats|` datasets, ordered by the Cartesian product
with the outer iteration over classes and the inner over stats, each
labelled `"class(stat)"`. -/
theorem line_datasets_product (selC : List String) (selS : List StatName)
    (title : String) (ds : ClassDataSet) (cols : StatObj RGB) (s e : Int)
    (o : LineGraphObject)
    (h : assembleLineGraphObject selC selS title ds cols s e = .ok o)
    (hne1 : selC ≠ []) (hne2 : selS ≠ []) :
    o.data.datasets.length = selC.length * selS.length ∧
      o.data.datasets.map (fun d => d.label)
        = (selC.map
            (fun c => selS.map (fun st => c ++ "(" ++ st.key ++ ")"))).flatten := by
  simp only [assembleLineGraphObject] at h
  cases hds : lineDataSetsAux selS ds cols selC.length
      (clampLevelRange s e).1 (clampLevelRange s e).2 selC 0 with
  | error er => rw [hds] at h; cases h
  | ok sets =>
    rw [hds] at h
    cases h
    exact ⟨lineDataSetsAux_length _ _ _ _ _ _ _ _ _ hds,
      lineDataSetsAux_labels _ _ _ _ _ _ _ _ _ hds⟩

/-- Witness for C7: two classes and two stats give the four datasets
`A(ATP), A(HP), B(ATP), B(HP)` in that order. -/
theorem line_datasets_product_witness :
    ∃ o, assembleLineGraphObject ["A", "B"] [StatName.ATP, StatName.HP] "T"
        twoClassData sampleStatColors 5 10 = .ok o ∧
      o.data.datasets.length = 4 ∧
      o.data.datasets.map (fun d => d.label)
        = ["A(ATP)", "A(HP)", "B(ATP)", "B(HP)"] := by
  refine ⟨_, rfl, ?_⟩
  obtain ⟨hl, hm⟩ := line_datasets_product ["A", "B"]
    [StatName.ATP, StatName.HP] "T" twoClassData sampleStatColors 5 10 _ rfl
    (by simp) (by simp)
  refine ⟨by simpa using hl, ?_⟩
  rw [hm]
  rfl

/-- A failed class lookup fails the radar dataset build for that class. -/
theorem createRadarDataSetForClass_error (className : String)
    (ds : ClassDataSet) (cols : List (String × RGB)) (lvl : Int)
    (sn : List StatName) (er : JsError)
    (h : getCharacterClassDataObject className ds = .error er) :
    createRadarDataSetForClass className ds cols lvl sn = .error er := by
  rw [createRadarDataSetForClass, h]

/-- C8: a selection containing a class identifier with no entry in the
static dataset makes each assembler raise a `NotFoundError` and return
no chart object (for the line assembler the class lookup sits inside
the inner loop, so this requires at least one selected stat). -/
theorem unknown_class_not_found (c : String) (selC : List String)
    (selS : List StatName) (title : String) (ds : ClassDataSet)
    (statCols : StatObj RGB) (s e : Int) (ccols : List (String × RGB))
    (lvl : Int) (sn : List StatName)
    (hc : c ∈ selC) (hmiss : ds.find? (fun cd => cd.name == c) = none)
    (hstats : selS ≠ []) :
    (∃ id, assembleLineGraphObject selC selS title ds statCols s e
      = .error (.notFound id)) ∧
    (∃ id, assembleRadarChartObject selC ds ccols lvl sn
      = .error (.notFound id)) := by
  have herr : getCharacterClassDataObject c ds = .error (.notFound c) := by
    rw [getCharacterClassDataObject, hmiss]
  constructor
  · obtain ⟨er, her⟩ := lineDataSetsAux_error selS ds statCols selC.length
      (clampLevelRange s e).1 (clampLevelRange s e).2 selC c hc _ herr hstats 0
    cases er with
    | notFound id =>
      refine ⟨id, ?_⟩
      simp only [assembleLineGraphObject, her]
  · obtain ⟨er, her⟩ := mapExcept_error_of_mem
      (fun c' => createRadarDataSetForClass c' ds ccols lvl sn) selC c hc _
      (createRadarDataSetForClass_error c ds ccols lvl sn _ herr)
    cases er with
    | notFound id =>
      refine ⟨id, ?_⟩
      rw [assembleRadarChartObject, createRadarChartDataSets, her]

/-- Witness for C8: the class `"X"` is absent from the dataset and both
assemblers fail with a `NotFoundError`. -/
theorem unknown_class_not_found_witness :
    (∃ id, assembleLineGraphObject ["X"] [StatName.ATP] "T" twoClassData
      sampleStatColors 5 10 = .error (.notFound id)) ∧
    (∃ id, assembleRadarChartObject ["X"] twoClassData twoClassColors 5
      [StatName.ATP] = .error (.notFound id)) :=
  unknown_class_not_found "X" ["X"] [StatName.ATP] "T" twoClassData
    sampleStatColors 5 10 twoClassColors 5 [StatName.ATP]
    (by decide) rfl (by decide)

/-- C5: the radar percentage vector built for a class is independent of
the selection: any two successful assemblies over selections that both
contain the class produce identical datasets for it, because the
normalization maximum is computed from the whole static dataset. -/
theorem radar_selection_independent (sel1 sel2 : List String)
    (ds : ClassDataSet) (cols : List (String × RGB)) (lvl : Int)
    (sn : List StatName) (c : String) (o1 o2 : RadarChartObject)
    (h1 : assembleRadarChartObject sel1 ds cols lvl sn = .ok o1)
    (h2 : assembleRadarChartObject sel2 ds cols lvl sn = .ok o2)
    (hc1 : c ∈ sel1) (hc2 : c ∈ sel2)
    (d1 : RadarDataSet) (hd1 : d1 ∈ o1.data.datasets) (hld1 : d1.label = c)
    (d2 : RadarDataSet) (hd2 : d2 ∈ o2.data.datasets) (hld2 : d2.label = c) :
    d1 = d2 := by
  rw [assembleRadarChartObject] at h1 h2
  cases hs1 : createRadarChartDataSets sel1 ds cols lvl sn with
  | error er => rw [hs1] at h1; cases h1
  | ok sets1 =>
    rw [hs1] at h1
    cases h1
    cases hs2 : createRadarChartDataSets sel2 ds cols lvl sn with
    | error er => rw [hs2] at h2; cases h2
    | ok sets2 =>
      rw [hs2] at h2
      cases h2
      rw [createRadarChartDataSets] at hs1 hs2
      obtain ⟨c1, -, hok1⟩ := mapExcept_ok_mem _ _ _ hs1 d1 hd1
      obtain ⟨c2, -, hok2⟩ := mapExcept_ok_mem _ _ _ hs2 d2 hd2
      have e1 : c1 = c := by
        rw [← hld1]
        exact (createRadarDataSetForClass_label _ _ _ _ _ _ hok1).symm
      have e2 : c2 = c := by
        rw [← hld2]
        exact (createRadarDataSetForClass_label _ _ _ _ _ _ hok2).symm
      subst e1
      subst e2
      exact Except.ok.inj (hok1.symm.trans hok2)

/-- Witness for C5: the dataset for class `A` is the same whether the
selection is `["A"]` or `["A", "B"]`. -/
theorem radar_selection_independent_witness :
    ∃ o1 o2 d1 d2,
      assembleRadarChartObject ["A"] twoClassData twoClassColors 5
        [StatName.ATP] = .ok o1 ∧
      assembleRadarChartObject ["A", "B"] twoClassData twoClassColors 5
        [StatName.ATP] = .ok o2 ∧
      d1 ∈ o1.data.datasets ∧ d1.label = "A" ∧
      d2 ∈ o2.data.datasets ∧ d2.label = "A" ∧ d1 = d2 := by
  refine ⟨_, _, _, _, rfl, rfl, List.mem_cons_self _ _, rfl,
    List.mem_cons_self _ _, rfl, ?_⟩
  exact radar_selection_independent ["A"] ["A", "B"] twoClassData
    twoClassColors 5 [StatName.ATP] "A" _ _ rfl rfl (by decide) (by decide)
    _ (List.mem_cons_self _ _) rfl _ (List.mem_cons_self _ _) rfl

theorem zeroSnapshot_get (s : StatName) : zeroSnapshot.get s = 0 := by
  cases s <;> rfl

/-- A successful class lookup returns a member of the dataset. -/
theorem getCharacterClassDataObject_mem (c : String) (ds : ClassDataSet)
    (cd : CharacterClassData) (h : getCharacterClassDataObject c ds = .ok cd) :
    cd ∈ ds := by
  rw [getCharacterClassDataObject] at h
  cases hf : ds.find? (fun x => x.name == c) with
  | none => rw [hf] at h; cases h
  | some x =>
    rw [hf] at h
    cases h
    exact List.mem_of_find?_eq_some hf

/-- The snapshot a class yields at a level is nonnegative at a stat as
soon as every entry of its table is. -/
theorem getStatsAtLevel_nonneg (cd : CharacterClassData) (lvl : Int)
    (s : StatName) (hnn : ∀ en ∈ cd.levelData, 0 ≤ en.stats.get s) :
    0 ≤ (getStatsAtLevel cd lvl).get s := by
  rw [getStatsAtLevel]
  cases hf : cd.levelData.find? (fun en => en.level == lvl) with
  | none => rw [zeroSnapshot_get]
  | some en => exact hnn en (List.mem_of_find?_eq_some hf)

/-- C1 (amended): if the cross-class maximum of a stat at the selected
level is 0 (and the stat values in the dataset are nonnegative, so every
class's value is 0 too), the radar assembler's value for that stat is JS
NaN — the unguarded `(0 / 0) * 100` — not the real number 0. -/
theorem radar_zero_max_gives_nan (sel : List String) (ds : ClassDataSet)
    (cols : List (String × RGB)) (lvl : Int) (sn : List StatName)
    (s : StatName) (o : RadarChartObject) (i : Nat)
    (h : assembleRadarChartObject sel ds cols lvl sn = .ok o)
    (hi : i < sn.length) (hsi : sn[i] = s)
    (hmax : (createMaximumStatsObject (createStatAtLevelArray ds lvl) sn).get s = 0)
    (hnn : ∀ cd ∈ ds, ∀ en ∈ cd.levelData, 0 ≤ en.stats.get s) :
    ∀ d ∈ o.data.datasets, d.data[i]? = some JsNum.nan := by
  have hs : s ∈ sn := by
    rw [← hsi]
    exact List.getElem_mem hi
  rw [assembleRadarChartObject] at h
  cases hds : createRadarChartDataSets sel ds cols lvl sn with
  | error er => rw [hds] at h; cases h
  | ok sets =>
    rw [hds] at h
    cases h
    intro d hd
    rw [createRadarChartDataSets] at hds
    obtain ⟨c, -, hok⟩ := mapExcept_ok_mem _ _ _ hds d hd
    obtain ⟨cd, rgb, hcd, -, hdef⟩ := createRadarDataSetForClass_ok _ _ _ _ _ _ hok
    have hv0 : (getStatsAtLevel cd lvl).get s = 0 := by
      refine le_antisymm ?_ ?_
      · rw [← hmax]
        refine le_createMaximumStatsObject _ _ _ hs _ ?_
        exact List.mem_map_of_mem _ (getCharacterClassDataObject_mem _ _ _ hcd)
      · exact getStatsAtLevel_nonneg cd lvl s
          (hnn cd (getCharacterClassDataObject_mem _ _ _ hcd))
    have hdata : d.data = sn.map
        (fun t => (createPercentageStats (getStatsAtLevel cd lvl)
          (createMaximumStatsObject (createStatAtLevelArray ds lvl) sn) sn).get t) := by
      rw [hdef]
      rfl
    rw [hdata, List.getElem?_map, List.getElem?_eq_getElem hi, hsi]
    have hperc := createPercentageStats_get (getStatsAtLevel cd lvl)
      (createMaximumStatsObject (createStatAtLevelArray ds lvl) sn) sn s hs
    rw [Option.map_some', hperc, hv0, hmax]
    simp [jsDiv, jsMul]

/-- Witness for C1 (amended): a one-class dataset whose only stats are
all 0 makes the assembled ATP value NaN. -/
theorem radar_zero_max_gives_nan_witness :
    ∃ o, assembleRadarChartObject ["Z"] zeroClassData zwColors 5
        [StatName.ATP] = .ok o ∧
      ∀ d ∈ o.data.datasets, d.data[0]? = some JsNum.nan := by
  refine ⟨_, rfl, ?_⟩
  exact radar_zero_max_gives_nan ["Z"] zeroClassData zwColors 5
    [StatName.ATP] .ATP _ 0 rfl (by decide) rfl (by decide) (by decide)

/-- Counterexample to C1 as stated: with every class's ATP equal to 0 at
level 5 the cross-class maximum is 0, yet the assembled percentage is
NaN, not the real number 0. -/
theorem radar_zero_max_counterexample :
    ∃ o, assembleRadarChartObject ["Z"] zwClassData zwColors 5
        [StatName.ATP] = .ok o ∧
      (createMaximumStatsObject (createStatAtLevelArray zwClassData 5)
        [StatName.ATP]).get .ATP = 0 ∧
      o.data.datasets.map (fun d => d.data) = [[JsNum.nan]] ∧
      JsNum.nan ≠ JsNum.real 0 := by
  refine ⟨_, rfl, rfl, rfl, ?_⟩
  intro hcontra
  cases hcontra

/-- C4 (amended): provided every value of the stat in the dataset is
nonnegative and the cross-class maximum of the stat at the level is
positive, every selected class's radar percentage for that stat is a
real number between 0 and 100 inclusive, and a class whose value equals
that maximum receives exactly 100.  (When the maximum is 0 the computed
values are NaN instead; see the counterexample.) -/
theorem radar_percentage_bounds (sel : List String) (ds : ClassDataSet)
    (cols : List (String × RGB)) (lvl : Int) (sn : List StatName)
    (s : StatName) (o : RadarChartObject) (i : Nat)
    (h : assembleRadarChartObject sel ds cols lvl sn = .ok o)
    (hi : i < sn.length) (hsi : sn[i] = s)
    (hpos : 0 < (createMaximumStatsObject (createStatAtLevelArray ds lvl) sn).get s)
    (hnn : ∀ cd ∈ ds, ∀ en ∈ cd.levelData, 0 ≤ en.stats.get s) :
    ∀ d ∈ o.data.datasets, ∃ q : ℚ,
      d.data[i]? = some (JsNum.real q) ∧ 0 ≤ q ∧ q ≤ 100 ∧
      (∀ cd, getCharacterClassDataObject d.label ds = .ok cd →
        (getStatsAtLevel cd lvl).get s
          = (createMaximumStatsObject (createStatAtLevelArray ds lvl) sn).get s →
        q = 100) := by
  have hs : s ∈ sn := by
    rw [← hsi]
    exact List.getElem_mem hi
  rw [assembleRadarChartObject] at h
  cases hds : createRadarChartDataSets sel ds cols lvl sn with
  | error er => rw [hds] at h; cases h
  | ok sets =>
    rw [hds] at h
    cases h
    intro d hd
    rw [createRadarChartDataSets] at hds
    obtain ⟨c, -, hok⟩ := mapExcept_ok_mem _ _ _ hds d hd
    obtain ⟨cd, rgb, hcd, -, hdef⟩ := createRadarDataSetForClass_ok _ _ _ _ _ _ hok
    have hvM : (getStatsAtLevel cd lvl).get s
        ≤ (createMaximumStatsObject (createStatAtLevelArray ds lvl) sn).get s :=
      le_createMaximumStatsObject _ _ _ hs _
        (List.mem_map_of_mem _ (getCharacterClassDataObject_mem _ _ _ hcd))
    have hv0 : 0 ≤ (getStatsAtLevel cd lvl).get s :=
      getStatsAtLevel_nonneg cd lvl s
        (hnn cd (getCharacterClassDataObject_mem _ _ _ hcd))
    refine ⟨(getStatsAtLevel cd lvl).get s
      / (createMaximumStatsObject (createStatAtLevelArray ds lvl) sn).get s
      * 100, ?_, ?_, ?_, ?_⟩
    · have hdata : d.data = sn.map
          (fun t => (createPercentageStats (getStatsAtLevel cd lvl)
            (createMaximumStatsObject (createStatAtLevelArray ds lvl) sn)
            sn).get t) := by
        rw [hdef]
        rfl
      rw [hdata, List.getElem?_map, List.getElem?_eq_getElem hi, hsi,
        Option.map_some', createPercentageStats_get _ _ _ _ hs, jsDiv,
        if_neg (ne_of_gt hpos)]
      rfl
    · exact mul_nonneg (div_nonneg hv0 (le_of_lt hpos)) (by norm_num)
    · calc (getStatsAtLevel cd lvl).get s
          / (createMaximumStatsObject (createStatAtLevelArray ds lvl) sn).get s
          * 100
          ≤ 1 * 100 :=
            mul_le_mul_of_nonneg_right ((div_le_one hpos).mpr hvM) (by norm_num)
        _ = 100 := one_mul 100
    · intro cd' hcd' heq
      have hlab : d.label = c := by
        rw [hdef]
        rfl
      rw [hlab] at hcd'
      obtain rfl : cd = cd' := Except.ok.inj (hcd.symm.trans hcd')
      rw [heq, div_self (ne_of_gt hpos), one_mul]

/-- Witness for C4 (amended): with ATP values 1 and 2 the two classes
receive 50 and 100, and the maximizing class `B` receives exactly 100. -/
theorem radar_percentage_bounds_witness :
    ∃ o, assembleRadarChartObject ["A", "B"] twoClassData twoClassColors 5
        [StatName.ATP] = .ok o ∧
      ∀ d ∈ o.data.datasets, ∃ q : ℚ,
        d.data[0]? = some (JsNum.real q) ∧ 0 ≤ q ∧ q ≤ 100 ∧
        (∀ cd, getCharacterClassDataObject d.label twoClassData = .ok cd →
          (getStatsAtLevel cd 5).get .ATP
            = (createMaximumStatsObject (createStatAtLevelArray twoClassData 5)
                [StatName.ATP]).get .ATP →
          q = 100) := by
  refine ⟨_, rfl, ?_⟩
  exact radar_percentage_bounds ["A", "B"] twoClassData twoClassColors 5
    [StatName.ATP] .ATP _ 0 rfl (by decide) rfl (by decide) (by decide)

/-- Counterexample to C4 as stated: when every class's DFP is 0 at the
level, the maximum is 0 and attained by every class, yet the computed
entries are NaN — not real numbers between 0 and 100 — and no class
receives 100. -/
theorem radar_bounds_counterexample :
    ∃ o, assembleRadarChartObject ["Z", "W"] zwClassData zwColors 5
        [StatName.DFP] = .ok o ∧
      (createMaximumStatsObject (createStatAtLevelArray zwClassData 5)
        [StatName.DFP]).get .DFP = 0 ∧
      (getStatsAtLevel classZ 5).get .DFP = 0 ∧
      o.data.datasets.map (fun d => d.data) = [[JsNum.nan], [JsNum.nan]] ∧
      (∀ q : ℚ, JsNum.nan ≠ JsNum.real q) ∧
      [JsNum.nan] ≠ [JsNum.real 100] := by
  refine ⟨_, rfl, rfl, rfl, rfl, ?_, by decide⟩
  intro q hq
  cases hq

/-- C2 (amended): the line assembler performs no alignment check and
defines no RangeMismatchError: each dataset's data array has exactly one
value per entry of its class's range-filtered table, so a level of the
label sequence with no table entry yields a silently misaligned chart
object rather than an error. -/
theorem line_no_range_mismatch_check (selC : List String)
    (selS : List StatName) (title : String) (ds : ClassDataSet)
    (cols : StatObj RGB) (s e : Int) (o : LineGraphObject)
    (h : assembleLineGraphObject selC selS title ds cols s e = .ok o) :
    ∀ d ∈ o.data.datasets, ∃ c ∈ selC, ∃ cd,
      getCharacterClassDataObject c ds = .ok cd ∧
      d.data.length = (getCharacterClassDataInRange (clampLevelRange s e).1
        (clampLevelRange s e).2 cd).levelData.length := by
  simp only [assembleLineGraphObject] at h
  cases hds : lineDataSetsAux selS ds cols selC.length
      (clampLevelRange s e).1 (clampLevelRange s e).2 selC 0 with
  | error er => rw [hds] at h; cases h
  | ok sets =>
    rw [hds] at h
    cases h
    intro d hd
    obtain ⟨c, hc, st, hst, j, hok⟩ :=
      lineDataSetsAux_mem _ _ _ _ _ _ _ _ _ hds d hd
    obtain ⟨cd, hcd, hdef⟩ := createLineDataSetForPair_ok _ _ _ _ _ _ _ _ _ hok
    refine ⟨c, hc, cd, hcd, ?_⟩
    rw [hdef]
    simp [createLineChartDataSet, createSingleStatArray]

/-- Witness for C2 (amended) at the concrete gap input. -/
theorem line_no_range_mismatch_check_witness :
    ∃ o, assembleLineGraphObject ["A"] [StatName.ATP] "T" gapClassData
        sampleStatColors 5 10 = .ok o ∧
      ∀ d ∈ o.data.datasets, ∃ c ∈ ["A"], ∃ cd,
        getCharacterClassDataObject c gapClassData = .ok cd ∧
        d.data.length = (getCharacterClassDataInRange (clampLevelRange 5 10).1
          (clampLevelRange 5 10).2 cd).levelData.length := by
  refine ⟨_, rfl, ?_⟩
  exact line_no_range_mismatch_check ["A"] [StatName.ATP] "T" gapClassData
    sampleStatColors 5 10 _ rfl

/-- Counterexample to C2 as stated: with a class table missing level 10,
the label sequence has two levels but the single dataset's data has one
value; the assembler returns this misaligned chart object successfully
instead of raising a RangeMismatchError (no such error exists in the
code). -/
theorem line_mismatch_counterexample :
    ∃ o, assembleLineGraphObject ["A"] [StatName.ATP] "T" gapClassData
        sampleStatColors 5 10 = .ok o ∧
      o.data.labels.length = 2 ∧
      o.data.datasets.map (fun d => d.data.length) = [1] := by
  exact ⟨_, rfl, rfl, rfl⟩
